import Mathlib

/-!
Verification development for the `github-app-auth-kit` library.

The TypeScript sources `src/utils.ts` and `src/core.ts` are shallowly
embedded below.  JavaScript strings are modelled as Lean `String`,
JavaScript integral numbers as `Int`, `undefined`-able values as `Option`,
thrown `Error(message)` values as `Except String`, and the injected
`fetch` transport as a function from the call index and the request to an
outcome.  Each network-bound method additionally threads the list of
requests issued so far, so that theorems can speak about how many
transport calls an operation performs and in which order.

The ambient clock (`Date.now()`, in milliseconds) and the RSA-SHA256
signing primitive of `node:crypto` are external capabilities of the
program; they are passed to the embedded operations as explicit
parameters (`nowMs`, `rsaSign`).
-/

/-! ## JavaScript string primitives used by the sources -/

/-- The whitespace test of JavaScript's `String.prototype.trim`
(space, tab, LF, CR, VT, FF, NBSP, BOM, LS, PS as code points). -/
def jsWhitespace (c : Char) : Bool :=
  [32, 9, 10, 13, 11, 12, 160, 65279, 8232, 8233].contains c.toNat

/-- JavaScript `value.trim()`: drop leading and trailing whitespace. -/
def trimStr (s : String) : String :=
  ⟨((s.data.dropWhile jsWhitespace).reverse.dropWhile jsWhitespace).reverse⟩

/-- One left-to-right pass of `raw.replace(/\\n/g, '\n')`: every literal
two-character backslash+`n` sequence becomes a real newline. -/
def replEsc : List Char → List Char
  | [] => []
  | [c] => [c]
  | c1 :: c2 :: rest =>
    if c1 = '\\' ∧ c2 = 'n' then '\n' :: replEsc rest
    else c1 :: replEsc (c2 :: rest)

/-- Whether a character list contains the two-character sequence
backslash+`n` (the escape form recognised by `normalizePrivateKey`). -/
def hasEscape : List Char → Bool
  | [] => false
  | [_] => false
  | c1 :: c2 :: rest => (c1 = '\\' && c2 = 'n') || hasEscape (c2 :: rest)

/-- JavaScript truthiness test on a `string | undefined` value:
`undefined` and the empty string are falsy. -/
def strFalsy : Option String → Bool
  | none => true
  | some s => s = ""

/-- JavaScript truthiness test on a `number | undefined` value restricted
to integers: `undefined` and `0` are falsy. -/
def numFalsy : Option Int → Bool
  | none => true
  | some n => n = 0

/-- The JavaScript nullish-coalescing operator `a ?? b` on optional
values: a present value (even an empty string or `0`) wins. -/
def nullish (a b : Option α) : Option α :=
  match a with
  | some v => some v
  | none => b

/-! ## base64url (`Buffer.from(...).toString('base64url')`)

Node's `base64url` encoding uses the URL-safe alphabet and no padding.
Bytes are modelled as natural numbers below 256; for the ASCII strings
produced by `JSON.stringify` in this library the UTF-8 bytes of a string
are exactly the code points of its characters. -/

/-- The 64 characters of the base64url alphabet. -/
def base64UrlAlphabet : List Char :=
  "ABCDEFGHIJKLMNOPQRSTUVWXYZabcdefghijklmnopqrstuvwxyz0123456789-_".data

/-- The character encoding a 6-bit value. -/
def b64Char (n : Nat) : Char := base64UrlAlphabet.getD n '?'

/-- The 6-bit value of an alphabet character, if any. -/
def b64Val (c : Char) : Option Nat :=
  List.findIdx? (· == c) base64UrlAlphabet

/-- Unpadded base64url encoding of a byte sequence, three bytes at a
time. -/
def encB64 : List Nat → List Char
  | [] => []
  | [a] => [b64Char (a / 4), b64Char (a % 4 * 16)]
  | [a, b] => [b64Char (a / 4), b64Char (a % 4 * 16 + b / 16), b64Char (b % 16 * 4)]
  | a :: b :: c :: rest =>
    b64Char (a / 4) :: b64Char (a % 4 * 16 + b / 16) ::
      b64Char (b % 16 * 4 + c / 64) :: b64Char (c % 64) :: encB64 rest

/-- Unpadded base64url decoding, the inverse of `encB64`; `none` on
input that no encoding produces. -/
def decB64 : List Char → Option (List Nat)
  | [] => some []
  | [_] => none
  | [c1, c2] =>
    match b64Val c1, b64Val c2 with
    | some v1, some v2 =>
      if v2 % 16 = 0 then some [v1 * 4 + v2 / 16] else none
    | _, _ => none
  | [c1, c2, c3] =>
    match b64Val c1, b64Val c2, b64Val c3 with
    | some v1, some v2, some v3 =>
      if v3 % 4 = 0 then some [v1 * 4 + v2 / 16, v2 % 16 * 16 + v3 / 4] else none
    | _, _, _ => none
  | c1 :: c2 :: c3 :: c4 :: rest =>
    match b64Val c1, b64Val c2, b64Val c3, b64Val c4, decB64 rest with
    | some v1, some v2, some v3, some v4, some bs =>
      some ((v1 * 4 + v2 / 16) :: (v2 % 16 * 16 + v3 / 4) :: (v3 % 4 * 64 + v4) :: bs)
    | _, _, _, _, _ => none

/-- UTF-8 bytes of a string; exact for the ASCII strings this library
serializes (each ASCII character is one byte equal to its code point). -/
def strBytes (s : String) : List Nat := s.data.map Char.toNat

/-- `toBase64UrlJson` of `src/utils.ts` applied to an already serialized
JSON text: `Buffer.from(text).toString('base64url')`.  The
`JSON.stringify` step is modelled by the explicit serializers
`jwtHeaderJson` / `jwtPayloadJson` at the call sites. -/
def toBase64UrlJson (s : String) : String :=
  List.asString (encB64 (strBytes s))

/-- base64url decoding of a string to its byte sequence. -/
def decodeB64UrlStr (s : String) : Option (List Nat) := decB64 s.data

/-- A string with no `.` character (a well-formed JWT segment). -/
def dotFree (s : String) : Bool := s.data.all (· != '.')

/-! ## `src/utils.ts` -/

/-- `normalizeRequiredNonEmptyString` of `src/utils.ts`: trim, and fail
when the result is empty. -/
def normalizeRequiredNonEmptyString (value fieldName : String) :
    Except String String :=
  let trimmed := trimStr value
  if trimmed = "" then
    .error ("`" ++ fieldName ++ "` must be a non-empty string.")
  else
    .ok trimmed

/-- `normalizePrivateKey` of `src/utils.ts`: require a non-empty trimmed
string, then replace every literal `\n` escape with a real newline. -/
def normalizePrivateKey (privateKeyRaw : String) : Except String String :=
  (normalizeRequiredNonEmptyString privateKeyRaw "privateKey").map
    (fun s => ⟨replEsc s.data⟩)

/-- `normalizeOptionalNonEmptyString` of `src/utils.ts`. -/
def normalizeOptionalNonEmptyString (value : Option String)
    (fieldName : String) : Except String (Option String) :=
  match value with
  | none => .ok none
  | some v => (normalizeRequiredNonEmptyString v fieldName).map some

/-- `parsePositiveInteger` of `src/utils.ts`, on integral number inputs
(the `Number(string)` coercion path and non-integral floats are outside
the `Int` embedding; both also fail in the source unless they denote a
positive integer). -/
def parsePositiveInteger (value : Int) (fieldName : String) :
    Except String Int :=
  if value ≤ 0 then
    .error ("`" ++ fieldName ++ "` must be a positive integer.")
  else
    .ok value

/-- `parseOptionalInstallationId` of `src/utils.ts`. -/
def parseOptionalInstallationId (value : Option Int) :
    Except String (Option Int) :=
  match value with
  | none => .ok none
  | some v => (parsePositiveInteger v "installationId").map some

/-- `parseOptionalJwtExpiresInSeconds` of `src/utils.ts`: absent is
accepted; a present value must be a positive integer of at most 600. -/
def parseOptionalJwtExpiresInSeconds (value : Option Int) :
    Except String (Option Int) :=
  match value with
  | none => .ok none
  | some v =>
    if v ≤ 0 then
      .error "`jwtExpiresInSeconds` must be a positive integer."
    else if 10 * 60 < v then
      .error "`jwtExpiresInSeconds` cannot exceed 600 seconds."
    else
      .ok (some v)

/-- `apiBaseUrl.replace(/\/+$/, '')`: strip trailing slashes. -/
def stripTrailingSlashes (s : String) : String :=
  ⟨(s.data.reverse.dropWhile (· == '/')).reverse⟩

/-! ## Transport model (`FetchLike`, `Response`) -/

/-- The JSON body of a 2xx GitHub response, as consumed by the library:
an optional numeric `id` (installation lookup) and an optional string
`token` (token exchange). -/
structure ResponseJson where
  id : Option Int := none
  token : Option String := none
deriving Repr, DecidableEq

/-- The part of a `Response` the library reads: the `ok` flag, status,
status text, the raw text body and the parsed JSON body. -/
structure ResponseModel where
  ok : Bool
  status : Nat
  statusText : String
  bodyText : String
  json : ResponseJson
deriving Repr, DecidableEq

/-- Outcome of one transport call: a thrown transport-level error
carrying its message, or a response. -/
inductive FetchOutcome where
  | thrown (msg : String)
  | resp (r : ResponseModel)
deriving Repr, DecidableEq

/-- One request as passed to the transport. -/
structure Request where
  url : String
  method : String
  headers : List (String × String)
  body : Option String
deriving Repr, DecidableEq

/-- A `fetch` implementation: maps the index of the call (how many
requests were issued before it) and the request to an outcome. -/
def FetchLike := Nat → Request → FetchOutcome

/-- The ambient runtime: whether `globalThis.fetch` is a function. -/
structure FetchEnv where
  globalFetch : Option FetchLike

/-- `resolveFetch` of `src/utils.ts`: prefer the override, else the
ambient `globalThis.fetch`, else fail. -/
def resolveFetch (fetcher : Option FetchLike) (env : FetchEnv) :
    Except String FetchLike :=
  match fetcher with
  | some f => .ok f
  | none =>
    match env.globalFetch with
    | some g => .ok g
    | none =>
      .error "`fetch` is not available in this runtime. Provide a fetch implementation in the constructor options."

/-- The message produced by `throwGitHubApiError` of `src/utils.ts` for
a non-2xx response. -/
def gitHubApiErrorMessage (r : ResponseModel) (context : String) : String :=
  let responseBody :=
    if trimStr r.bodyText = "" then "(empty response body)" else r.bodyText
  context ++ " (" ++ Nat.repr r.status ++ " " ++ r.statusText ++ "): " ++
    responseBody

/-! ## `src/types.ts` -/

/-- `GitHubAppAuthOptions` of `src/types.ts` (constructor options). -/
structure GitHubAppAuthOptions where
  appId : Int
  privateKey : String
  owner : Option String := none
  repo : Option String := none
  installationId : Option Int := none
  jwtExpiresInSeconds : Option Int := none
  apiBaseUrl : Option String := none
  fetch : Option FetchLike := none

/-- `GitHubRepoRef` of `src/types.ts`. -/
structure GitHubRepoRef where
  owner : Option String := none
  repo : Option String := none

/-- `CreateAccessTokenOptions` of `src/types.ts`; a permission map is a
list of name/level pairs and is passed through unvalidated. -/
structure CreateAccessTokenOptions where
  owner : Option String := none
  repo : Option String := none
  installationId : Option Int := none
  permissions : Option (List (String × String)) := none
  repositories : Option (List String) := none
  repositoryIds : Option (List Int) := none

/-! ## `src/core.ts` -/

/-- `DEFAULT_GITHUB_API_BASE_URL` of `src/core.ts`. -/
def DEFAULT_GITHUB_API_BASE_URL : String := "https://api.github.com"

/-- `DEFAULT_JWT_EXPIRES_IN_SECONDS` of `src/core.ts` (9 minutes). -/
def DEFAULT_JWT_EXPIRES_IN_SECONDS : Int := 9 * 60

/-- The private state of a constructed `GitHubAppAuth` client. -/
structure GitHubAppAuth where
  appId : Int
  privateKey : String
  owner : Option String
  repo : Option String
  installationId : Option Int
  apiBaseUrl : String
  jwtExpiresInSeconds : Int
  fetcher : FetchLike

/-- The `GitHubAppAuth` constructor: validate and normalize every
option in source order, resolve the transport, then enforce that a
default repository target names both `owner` and `repo`. -/
def GitHubAppAuth.construct (opts : GitHubAppAuthOptions) (env : FetchEnv) :
    Except String GitHubAppAuth :=
  match parsePositiveInteger opts.appId "appId" with
  | .error e => .error e
  | .ok appId =>
  match normalizePrivateKey opts.privateKey with
  | .error e => .error e
  | .ok privateKey =>
  match normalizeOptionalNonEmptyString opts.owner "owner" with
  | .error e => .error e
  | .ok owner =>
  match normalizeOptionalNonEmptyString opts.repo "repo" with
  | .error e => .error e
  | .ok repo =>
  match parseOptionalInstallationId opts.installationId with
  | .error e => .error e
  | .ok installationId =>
  match parseOptionalJwtExpiresInSeconds opts.jwtExpiresInSeconds with
  | .error e => .error e
  | .ok jwtWindow =>
  match normalizeOptionalNonEmptyString opts.apiBaseUrl "apiBaseUrl" with
  | .error e => .error e
  | .ok apiBase =>
  match resolveFetch opts.fetch env with
  | .error e => .error e
  | .ok fetcher =>
  if (owner.isSome && !repo.isSome) || (!owner.isSome && repo.isSome) then
    .error "Both `owner` and `repo` must be provided together when setting a default repository target."
  else
    .ok {
      appId := appId
      privateKey := privateKey
      owner := owner
      repo := repo
      installationId := installationId
      apiBaseUrl :=
        stripTrailingSlashes (apiBase.getD DEFAULT_GITHUB_API_BASE_URL)
      jwtExpiresInSeconds := jwtWindow.getD DEFAULT_JWT_EXPIRES_IN_SECONDS
      fetcher := fetcher
    }

/-- The JWT header object of `createJwt`, serialized as
`JSON.stringify` prints it. -/
def jwtHeaderJson : String := "\x7b\"alg\":\"RS256\",\"typ\":\"JWT\"\x7d"

/-- The JWT payload object of `createJwt`. -/
structure JwtPayload where
  iat : Int
  exp : Int
  iss : Int
deriving Repr, DecidableEq

/-- The payload serialized as `JSON.stringify` prints it (insertion
order `iat`, `exp`, `iss`). -/
def jwtPayloadJson (p : JwtPayload) : String :=
  "\x7b\"iat\":" ++ Int.repr p.iat ++ ",\"exp\":" ++ Int.repr p.exp ++
    ",\"iss\":" ++ Int.repr p.iss ++ "\x7d"

/-- The payload `createJwt` builds at clock reading `nowMs`
(milliseconds): `now = Math.floor(Date.now() / 1000)`, `iat = now - 60`,
`exp = now + jwtExpiresInSeconds`, `iss = appId`. -/
def GitHubAppAuth.jwtPayloadAt (a : GitHubAppAuth) (nowMs : Int) :
    JwtPayload :=
  let now := Int.fdiv nowMs 1000
  { iat := now - 60, exp := now + a.jwtExpiresInSeconds, iss := a.appId }

/-- `createJwt` of `src/core.ts`: encode header and payload, sign
`header.payload` with the normalized private key (`rsaSign` models the
`node:crypto` RSA-SHA256 signer, already base64url-encoded), and return
`header.payload.signature`. -/
def GitHubAppAuth.createJwt (a : GitHubAppAuth)
    (rsaSign : String → String → String) (nowMs : Int) : String :=
  let encodedHeader := toBase64UrlJson jwtHeaderJson
  let encodedPayload := toBase64UrlJson (jwtPayloadJson (a.jwtPayloadAt nowMs))
  let signingInput := encodedHeader ++ "." ++ encodedPayload
  signingInput ++ "." ++ rsaSign a.privateKey signingInput

/-- The installation-lookup request `resolveInstallationId` issues for
a resolved owner/repo pair. -/
def GitHubAppAuth.lookupRequest (a : GitHubAppAuth)
    (rsaSign : String → String → String) (nowMs : Int)
    (owner repo : String) : Request :=
  { url := a.apiBaseUrl ++ "/repos/" ++ owner ++ "/" ++ repo ++ "/installation"
    method := "GET"
    headers := [
      ("Accept", "application/vnd.github+json"),
      ("Authorization", "Bearer " ++ a.createJwt rsaSign nowMs),
      ("X-GitHub-Api-Version", "2022-11-28")]
    body := none }

/-- `resolveInstallationId` of `src/core.ts`.  Returns the result
together with the updated request trace (`trace` holds the requests
already issued; new requests are appended). -/
def GitHubAppAuth.resolveInstallationId (a : GitHubAppAuth)
    (rsaSign : String → String → String) (nowMs : Int)
    (ref : GitHubRepoRef) (trace : List Request) :
    Except String Int × List Request :=
  let ow := nullish ref.owner a.owner
  let rp := nullish ref.repo a.repo
  if strFalsy ow || strFalsy rp then
    (.error "Missing repository target. Provide both `owner` and `repo` in the constructor or method call.",
      trace)
  else
    let owner := ow.getD ""
    let repo := rp.getD ""
    let req := a.lookupRequest rsaSign nowMs owner repo
    let trace1 := trace ++ [req]
    match a.fetcher trace.length req with
    | .thrown msg =>
      (.error ("Failed to read installation for " ++ owner ++ "/" ++ repo ++
        ": " ++ msg), trace1)
    | .resp r =>
      if !r.ok then
        (.error (gitHubApiErrorMessage r
          ("Failed to read installation for " ++ owner ++ "/" ++ repo)),
          trace1)
      else if numFalsy r.json.id then
        (.error "GitHub response did not include an installation id.", trace1)
      else
        (.ok (r.json.id.getD 0), trace1)

/-- `JSON.stringify` of a string, with the quoting relevant to the
pass-through values this library sends (escaping inside the value is not
modelled). -/
def jsonQuote (s : String) : String := "\"" ++ s ++ "\""

/-- `JSON.stringify` of a string array. -/
def jsonArrStr (xs : List String) : String :=
  "[" ++ String.intercalate "," (xs.map jsonQuote) ++ "]"

/-- `JSON.stringify` of a number array. -/
def jsonArrInt (xs : List Int) : String :=
  "[" ++ String.intercalate "," (xs.map Int.repr) ++ "]"

/-- `JSON.stringify` of a permission map (insertion-ordered pairs). -/
def jsonObjPairs (ps : List (String × String)) : String :=
  "\x7b" ++
    String.intercalate "," (ps.map fun p => jsonQuote p.1 ++ ":" ++ jsonQuote p.2) ++
    "\x7d"

/-- The POST body of `createAccessToken`:
`JSON.stringify({ permissions, repositories, repository_ids })`, where a
key whose value is `undefined` is omitted. -/
def stringifyTokenBody (o : CreateAccessTokenOptions) : String :=
  let fields :=
    (match o.permissions with
      | some ps => [("permissions", jsonObjPairs ps)]
      | none => []) ++
    (match o.repositories with
      | some rs => [("repositories", jsonArrStr rs)]
      | none => []) ++
    (match o.repositoryIds with
      | some ids => [("repository_ids", jsonArrInt ids)]
      | none => [])
  "\x7b" ++
    String.intercalate "," (fields.map fun f => jsonQuote f.1 ++ ":" ++ f.2) ++
    "\x7d"

/-- The token-exchange request `createAccessToken` issues once an
installation id is known. -/
def GitHubAppAuth.tokenRequest (a : GitHubAppAuth)
    (rsaSign : String → String → String) (nowMs : Int)
    (o : CreateAccessTokenOptions) (instId : Int) : Request :=
  { url := a.apiBaseUrl ++ "/app/installations/" ++ Int.repr instId ++
      "/access_tokens"
    method := "POST"
    headers := [
      ("Accept", "application/vnd.github+json"),
      ("Authorization", "Bearer " ++ a.createJwt rsaSign nowMs),
      ("X-GitHub-Api-Version", "2022-11-28"),
      ("Content-Type", "application/json")]
    body := some (stringifyTokenBody o) }

/-- The tail of `createAccessToken` after an installation id is known:
mint a fresh JWT, POST the token request, and surface transport,
status and missing-field failures. -/
def GitHubAppAuth.exchangeToken (a : GitHubAppAuth)
    (rsaSign : String → String → String) (nowMs : Int)
    (o : CreateAccessTokenOptions) (instId : Int) (trace : List Request) :
    Except String String × List Request :=
  let req := a.tokenRequest rsaSign nowMs o instId
  let trace1 := trace ++ [req]
  match a.fetcher trace.length req with
  | .thrown msg =>
    (.error ("Failed to create installation access token for installation " ++
      Int.repr instId ++ ": " ++ msg), trace1)
  | .resp r =>
    if !r.ok then
      (.error (gitHubApiErrorMessage r
        ("Failed to create installation access token for installation " ++
          Int.repr instId)), trace1)
    else if strFalsy r.json.token then
      (.error "GitHub response did not include an installation token.", trace1)
    else
      (.ok (r.json.token.getD ""), trace1)

/-- `createAccessToken` of `src/core.ts`: prefer the explicit
`installationId` argument, else the client default, else resolve from
the effective owner/repo target (failing with the missing-target error
before any transport call when neither is usable), then exchange the
freshly minted JWT for an installation token. -/
def GitHubAppAuth.createAccessToken (a : GitHubAppAuth)
    (rsaSign : String → String → String) (nowMs : Int)
    (o : CreateAccessTokenOptions) (trace : List Request) :
    Except String String × List Request :=
  match parseOptionalInstallationId (nullish o.installationId a.installationId) with
  | .error e => (.error e, trace)
  | .ok idOpt =>
    if numFalsy idOpt then
      let ow := nullish o.owner a.owner
      let rp := nullish o.repo a.repo
      if strFalsy ow || strFalsy rp then
        (.error "Missing repository target. Provide both `owner` and `repo` in the constructor or method call.",
          trace)
      else
        match a.resolveInstallationId rsaSign nowMs
          { owner := some (ow.getD ""), repo := some (rp.getD "") } trace with
        | (.error e, trace1) => (.error e, trace1)
        | (.ok instId, trace1) => a.exchangeToken rsaSign nowMs o instId trace1
    else
      a.exchangeToken rsaSign nowMs o (idOpt.getD 0) trace

/-- The merged option record `GitHubAppAuthOptions &
CreateAccessTokenOptions` accepted by the static one-shot helper. -/
structure StaticOptions where
  appId : Int
  privateKey : String
  owner : Option String := none
  repo : Option String := none
  installationId : Option Int := none
  jwtExpiresInSeconds : Option Int := none
  apiBaseUrl : Option String := none
  fetch : Option FetchLike := none
  permissions : Option (List (String × String)) := none
  repositories : Option (List String) := none
  repositoryIds : Option (List Int) := none

/-- The constructor-options part of a merged option record. -/
def StaticOptions.toAuthOptions (o : StaticOptions) : GitHubAppAuthOptions :=
  { appId := o.appId, privateKey := o.privateKey, owner := o.owner
    repo := o.repo, installationId := o.installationId
    jwtExpiresInSeconds := o.jwtExpiresInSeconds, apiBaseUrl := o.apiBaseUrl
    fetch := o.fetch }

/-- The per-call part of a merged option record. -/
def StaticOptions.toTokenOptions (o : StaticOptions) :
    CreateAccessTokenOptions :=
  { owner := o.owner, repo := o.repo, installationId := o.installationId
    permissions := o.permissions, repositories := o.repositories
    repositoryIds := o.repositoryIds }

/-- The static `GitHubAppAuth.createAccessToken` one-shot helper:
construct a transient client from the options and delegate the same
options to the instance method. -/
def GitHubAppAuth.staticCreateAccessToken (o : StaticOptions)
    (env : FetchEnv) (rsaSign : String → String → String) (nowMs : Int)
    (trace : List Request) : Except String String × List Request :=
  match GitHubAppAuth.construct o.toAuthOptions env with
  | .error e => (.error e, trace)
  | .ok auth => auth.createAccessToken rsaSign nowMs o.toTokenOptions trace

/-- Follows the spec's words (§4.3): percent-encoding of an owner/repo
value into a URL path segment, keeping the unreserved characters of
`encodeURIComponent` and hex-escaping every other ASCII character. -/
def specPercentEncodePathSegment (s : String) : String :=
  let unreserved := fun c : Char =>
    c.isAlphanum || c == '-' || c == '_' || c == '.' || c == '!' ||
      c == '~' || c == '*' || c == '\'' || c == '(' || c == ')'
  let hexDigit := fun n : Nat => Nat.digitChar n |>.toUpper
  let encChar := fun c : Char =>
    if unreserved c then [c]
    else ['%', hexDigit (c.toNat / 16 % 16), hexDigit (c.toNat % 16)]
  ⟨s.data.flatMap encChar⟩

/-! ## Supporting lemmas -/

theorem b64Val_b64Char : ∀ v : Nat, v < 64 → b64Val (b64Char v) = some v := by
  decide

theorem b64Char_ne_dot (v : Nat) : b64Char v ≠ '.' := by
  by_cases h : v < 64
  · revert v h
    decide
  · show base64UrlAlphabet.getD v '?' ≠ '.'
    rw [List.getD_eq_default]
    · decide
    · have hlen : base64UrlAlphabet.length = 64 := rfl
      omega

theorem decB64_encB64 : ∀ bs : List Nat, (∀ b ∈ bs, b < 256) →
    decB64 (encB64 bs) = some bs := by
  intro bs
  induction bs using encB64.induct with
  | case1 => intro _; rfl
  | case2 a =>
    intro h
    have ha : a < 256 := h a (by simp)
    have h1 := b64Val_b64Char (a / 4) (by omega)
    have h2 := b64Val_b64Char (a % 4 * 16) (by omega)
    have hz : a % 4 * 16 % 16 = 0 := by omega
    have e1 : a / 4 * 4 + a % 4 * 16 / 16 = a := by omega
    simp [encB64, decB64, h1, h2, hz, e1]
    all_goals omega
  | case3 a b =>
    intro h
    have ha : a < 256 := h a (by simp)
    have hb : b < 256 := h b (by simp)
    have h1 := b64Val_b64Char (a / 4) (by omega)
    have h2 := b64Val_b64Char (a % 4 * 16 + b / 16) (by omega)
    have h3 := b64Val_b64Char (b % 16 * 4) (by omega)
    have hz : b % 16 * 4 % 4 = 0 := by omega
    have e1 : a / 4 * 4 + (a % 4 * 16 + b / 16) / 16 = a := by omega
    have e2 : (a % 4 * 16 + b / 16) % 16 * 16 + b % 16 * 4 / 4 = b := by omega
    simp [encB64, decB64, h1, h2, h3, hz, e1, e2]
    all_goals omega
  | case4 a b c rest ih =>
    intro h
    have ha : a < 256 := h a (by simp)
    have hb : b < 256 := h b (by simp)
    have hc : c < 256 := h c (by simp)
    have hrest : ∀ x ∈ rest, x < 256 := fun x hx => h x (by simp [hx])
    have h1 := b64Val_b64Char (a / 4) (by omega)
    have h2 := b64Val_b64Char (a % 4 * 16 + b / 16) (by omega)
    have h3 := b64Val_b64Char (b % 16 * 4 + c / 64) (by omega)
    have h4 := b64Val_b64Char (c % 64) (by omega)
    have e1 : a / 4 * 4 + (a % 4 * 16 + b / 16) / 16 = a := by omega
    have e2 : (a % 4 * 16 + b / 16) % 16 * 16 + (b % 16 * 4 + c / 64) / 4 = b := by
      omega
    have e3 : (b % 16 * 4 + c / 64) % 4 * 64 + c % 64 = c := by omega
    simp [encB64, decB64, h1, h2, h3, h4, ih hrest, e1, e2, e3]

theorem encB64_not_dot : ∀ bs : List Nat, ∀ ch ∈ encB64 bs, ch ≠ '.' := by
  intro bs
  induction bs using encB64.induct with
  | case1 => intro ch hch; simp [encB64] at hch
  | case2 a =>
    intro ch hch
    simp [encB64] at hch
    rcases hch with h | h <;> exact h ▸ b64Char_ne_dot _
  | case3 a b =>
    intro ch hch
    simp [encB64] at hch
    rcases hch with h | h | h <;> exact h ▸ b64Char_ne_dot _
  | case4 a b c rest ih =>
    intro ch hch
    simp [encB64] at hch
    rcases hch with h | h | h | h | h
    · exact h ▸ b64Char_ne_dot _
    · exact h ▸ b64Char_ne_dot _
    · exact h ▸ b64Char_ne_dot _
    · exact h ▸ b64Char_ne_dot _
    · exact ih ch h

theorem digitChar_toNat_lt (n : Nat) : (Nat.digitChar n).toNat < 256 := by
  by_cases h : n < 16
  · interval_cases n <;> decide
  · unfold Nat.digitChar
    repeat rw [if_neg (by omega)]
    decide

theorem toDigitsCore_ascii (b : Nat) :
    ∀ (fuel n : Nat) (ds : List Char), (∀ c ∈ ds, c.toNat < 256) →
    ∀ c ∈ Nat.toDigitsCore b fuel n ds, c.toNat < 256 := by
  intro fuel
  induction fuel with
  | zero => intro n ds hds c hc; exact hds c hc
  | succ fuel ih =>
    intro n ds hds c hc
    rw [Nat.toDigitsCore] at hc
    by_cases hz : n / b = 0
    · simp only [hz, if_pos rfl] at hc
      rcases List.mem_cons.mp hc with h | h
      · exact h ▸ digitChar_toNat_lt _
      · exact hds c h
    · simp only [if_neg hz] at hc
      refine ih (n / b) (Nat.digitChar (n % b) :: ds) ?_ c hc
      intro d hd
      rcases List.mem_cons.mp hd with h | h
      · exact h ▸ digitChar_toNat_lt _
      · exact hds d h

theorem natRepr_ascii (n : Nat) : ∀ c ∈ (Nat.repr n).data, c.toNat < 256 := by
  intro c hc
  have hd : (Nat.repr n).data = Nat.toDigits 10 n := rfl
  rw [hd, Nat.toDigits] at hc
  exact toDigitsCore_ascii 10 (n + 1) n [] (by simp) c hc

theorem intRepr_ascii (i : Int) : ∀ c ∈ (Int.repr i).data, c.toNat < 256 := by
  intro c hc
  cases i with
  | ofNat m => exact natRepr_ascii m c hc
  | negSucc m =>
    rw [Int.repr] at hc
    rw [String.data_append] at hc
    rcases List.mem_append.mp hc with h | h
    · simp at h
      subst h
      decide
    · exact natRepr_ascii _ c h

theorem payloadJson_bytes_lt (p : JwtPayload) :
    ∀ b ∈ strBytes (jwtPayloadJson p), b < 256 := by
  intro b hb
  simp only [strBytes, jwtPayloadJson, List.mem_map] at hb
  obtain ⟨c, hc, rfl⟩ := hb
  repeat rw [String.data_append] at hc
  simp only [List.mem_append] at hc
  rcases hc with ((((((h | h) | h) | h) | h) | h) | h)
  · fin_cases h <;> decide
  · exact intRepr_ascii _ c h
  · fin_cases h <;> decide
  · exact intRepr_ascii _ c h
  · fin_cases h <;> decide
  · exact intRepr_ascii _ c h
  · fin_cases h <;> decide

theorem decode_toBase64UrlJson (s : String)
    (h : ∀ b ∈ strBytes s, b < 256) :
    decodeB64UrlStr (toBase64UrlJson s) = some (strBytes s) := by
  show decB64 (List.asString (encB64 (strBytes s))).data = some (strBytes s)
  have hd : (List.asString (encB64 (strBytes s))).data = encB64 (strBytes s) := rfl
  rw [hd]
  exact decB64_encB64 _ h

theorem toBase64UrlJson_dotFree (s : String) :
    dotFree (toBase64UrlJson s) = true := by
  simp only [dotFree, toBase64UrlJson, List.all_eq_true]
  intro c hc
  have hd : (List.asString (encB64 (strBytes s))).data = encB64 (strBytes s) := rfl
  rw [hd] at hc
  simpa using encB64_not_dot _ c hc

theorem replEsc_of_no_escape : ∀ l : List Char, hasEscape l = false →
    replEsc l = l := by
  intro l
  induction l using replEsc.induct with
  | case1 => intro _; rfl
  | case2 c => intro _; rfl
  | case3 c1 c2 rest hcond ih =>
    intro h
    rw [hasEscape] at h
    simp [hcond.1, hcond.2] at h
  | case4 c1 c2 rest hcond ih =>
    intro h
    rw [hasEscape] at h
    simp only [Bool.or_eq_false_iff] at h
    rw [replEsc, if_neg hcond, ih h.2]

theorem construct_ok_inv (opts : GitHubAppAuthOptions) (env : FetchEnv)
    (a : GitHubAppAuth) (h : GitHubAppAuth.construct opts env = .ok a) :
    parsePositiveInteger opts.appId "appId" = .ok a.appId ∧
    ∃ jw, parseOptionalJwtExpiresInSeconds opts.jwtExpiresInSeconds = .ok jw ∧
      a.jwtExpiresInSeconds = jw.getD DEFAULT_JWT_EXPIRES_IN_SECONDS := by
  unfold GitHubAppAuth.construct at h
  repeat' split at h
  all_goals simp_all
  subst h
  exact ⟨rfl, rfl⟩

theorem jwtWindow_bounds (v : Option Int) (jw : Option Int)
    (h : parseOptionalJwtExpiresInSeconds v = .ok jw) :
    0 < jw.getD DEFAULT_JWT_EXPIRES_IN_SECONDS ∧
      jw.getD DEFAULT_JWT_EXPIRES_IN_SECONDS ≤ 600 := by
  cases v with
  | none =>
    simp [parseOptionalJwtExpiresInSeconds] at h
    subst h
    decide
  | some x =>
    simp only [parseOptionalJwtExpiresInSeconds] at h
    split at h
    · cases h
    · split at h
      · cases h
      · injection h with h'
        subst h'
        simp [DEFAULT_JWT_EXPIRES_IN_SECONDS] at *
        omega

/-! ## Concrete fixtures for witnesses and counterexamples -/

/-- A transport stub in the style of the repository's test suite:
answers the i-th call with the i-th canned outcome and throws once the
canned outcomes are exhausted. -/
def mkFetch (responses : List FetchOutcome) : FetchLike :=
  fun i _ => responses.getD i (.thrown "No mock response available")

/-- An inert transport that always throws. -/
def fetch0 : FetchLike := mkFetch []

/-- A 200 lookup response carrying an installation id. -/
def resp200id (n : Int) : FetchOutcome :=
  .resp { ok := true, status := 200, statusText := "OK", bodyText := "",
          json := { id := some n } }

/-- A 201 exchange response carrying a token. -/
def resp201tok (t : String) : FetchOutcome :=
  .resp { ok := true, status := 201, statusText := "Created", bodyText := "",
          json := { token := some t } }

/-- A stand-in for the external RSA-SHA256 signer. -/
def sig0 : String → String → String := fun _ _ => "SIG"

/-- An ambient runtime without `globalThis.fetch`. -/
def envNone : FetchEnv := ⟨none⟩

/-- Constructor options selecting the maximal accepted expiry window. -/
def opts600 : GitHubAppAuthOptions :=
  { appId := 1, privateKey := "k", jwtExpiresInSeconds := some 600,
    fetch := some fetch0 }

/-- The client `opts600` constructs. -/
def client600 : GitHubAppAuth :=
  { appId := 1, privateKey := "k", owner := none, repo := none,
    installationId := none, apiBaseUrl := "https://api.github.com",
    jwtExpiresInSeconds := 600, fetcher := fetch0 }

/-- Constructor options leaving the expiry window at its default. -/
def optsDef : GitHubAppAuthOptions :=
  { appId := 123, privateKey := "k", fetch := some fetch0 }

/-- The client `optsDef` constructs. -/
def clientDef : GitHubAppAuth :=
  { appId := 123, privateKey := "k", owner := none, repo := none,
    installationId := none, apiBaseUrl := "https://api.github.com",
    jwtExpiresInSeconds := 540, fetcher := fetch0 }

/-- Constructor options without any transport override. -/
def optsNoFetch : GitHubAppAuthOptions := { appId := 1, privateKey := "k" }

/-! ## Claims -/

/-- C1 (amended): for every client whose construction succeeds, every
JWT payload has `exp - iat` equal to `jwtExpiresInSeconds + 60` (the
60-second backdate is added on top of the window), the accepted window
is positive and at most 600, and hence `exp - iat` is at most 660 —
not 600 as originally claimed. -/
theorem claim1_exp_iat_window (opts : GitHubAppAuthOptions) (env : FetchEnv)
    (a : GitHubAppAuth) (h : GitHubAppAuth.construct opts env = .ok a)
    (nowMs : Int) :
    (a.jwtPayloadAt nowMs).exp - (a.jwtPayloadAt nowMs).iat =
      a.jwtExpiresInSeconds + 60 ∧
    0 < a.jwtExpiresInSeconds ∧ a.jwtExpiresInSeconds ≤ 600 ∧
    (a.jwtPayloadAt nowMs).exp - (a.jwtPayloadAt nowMs).iat ≤ 660 := by
  obtain ⟨-, jw, hjw, hset⟩ := construct_ok_inv opts env a h
  obtain ⟨h1, h2⟩ := jwtWindow_bounds _ _ hjw
  rw [← hset] at h1 h2
  simp only [GitHubAppAuth.jwtPayloadAt]
  refine ⟨by ring, h1, h2, by omega⟩

/-- C1 witness: the concrete client with the maximal accepted window
600 instantiates the amended bound. -/
theorem claim1_witness :
    (client600.jwtPayloadAt 1000000).exp - (client600.jwtPayloadAt 1000000).iat =
      client600.jwtExpiresInSeconds + 60 ∧
    0 < client600.jwtExpiresInSeconds ∧ client600.jwtExpiresInSeconds ≤ 600 ∧
    (client600.jwtPayloadAt 1000000).exp - (client600.jwtPayloadAt 1000000).iat ≤ 660 :=
  claim1_exp_iat_window opts600 envNone client600 rfl 1000000

/-- C1 counterexample: `jwtExpiresInSeconds := 600` is accepted by the
constructor, yet the resulting JWT payload has `exp - iat = 660`,
exceeding the claimed 600-second bound. -/
theorem claim1_counterexample :
    (GitHubAppAuth.construct opts600 envNone).toOption.map
      (fun c => (c.jwtPayloadAt 1000000).exp - (c.jwtPayloadAt 1000000).iat) =
      some 660 ∧ ¬ (660 : Int) ≤ 600 :=
  ⟨rfl, by decide⟩

/-- C3 (amended): when neither a transport override nor an ambient
`fetch` exists, and every earlier constructor validation passes,
construction itself fails with the unavailable-transport error — the
failure is raised at construction time, not deferred to the first
network-bound operation. -/
theorem claim3_fetch_at_construction (opts : GitHubAppAuthOptions)
    (env : FetchEnv) (hov : opts.fetch = none) (hgl : env.globalFetch = none)
    (appId' : Int) (happ : parsePositiveInteger opts.appId "appId" = .ok appId')
    (pk : String) (hpk : normalizePrivateKey opts.privateKey = .ok pk)
    (ow : Option String)
    (how : normalizeOptionalNonEmptyString opts.owner "owner" = .ok ow)
    (rp : Option String)
    (hrp : normalizeOptionalNonEmptyString opts.repo "repo" = .ok rp)
    (iid : Option Int)
    (hiid : parseOptionalInstallationId opts.installationId = .ok iid)
    (jw : Option Int)
    (hjw : parseOptionalJwtExpiresInSeconds opts.jwtExpiresInSeconds = .ok jw)
    (ab : Option String)
    (hab : normalizeOptionalNonEmptyString opts.apiBaseUrl "apiBaseUrl" = .ok ab) :
    GitHubAppAuth.construct opts env =
      .error "`fetch` is not available in this runtime. Provide a fetch implementation in the constructor options." := by
  unfold GitHubAppAuth.construct
  rw [happ, hpk, how, hrp, hiid, hjw, hab]
  simp [resolveFetch, hov, hgl]

/-- C3 witness: constructing with valid identity, no transport override
and no ambient `fetch` yields the unavailable-transport error. -/
theorem claim3_witness :
    GitHubAppAuth.construct optsNoFetch envNone =
      .error "`fetch` is not available in this runtime. Provide a fetch implementation in the constructor options." :=
  claim3_fetch_at_construction optsNoFetch envNone rfl rfl 1 rfl "k" rfl
    none rfl none rfl none rfl none rfl none rfl

/-- C3 counterexample: against the claim, constructing without any
transport does not succeed — it already fails in the constructor. -/
theorem claim3_counterexample :
    (GitHubAppAuth.construct optsNoFetch envNone).isOk = false := rfl

/-- C5: when, after falling back to the client's defaults, the owner or
the repo is still missing (absent or empty), `resolveInstallationId`
returns the missing-repository-target error and issues no transport
call (the request trace is unchanged). -/
theorem claim5_missing_target (a : GitHubAppAuth)
    (rsaSign : String → String → String) (nowMs : Int)
    (ref : GitHubRepoRef) (trace : List Request)
    (h : strFalsy (nullish ref.owner a.owner) = true ∨
      strFalsy (nullish ref.repo a.repo) = true) :
    a.resolveInstallationId rsaSign nowMs ref trace =
      (.error "Missing repository target. Provide both `owner` and `repo` in the constructor or method call.",
        trace) := by
  unfold GitHubAppAuth.resolveInstallationId
  rcases h with h | h <;> simp [h]

/-- C5 witness: a client with no default target, called with no target,
fails with the missing-target error and an empty request trace. -/
theorem claim5_witness :
    clientDef.resolveInstallationId sig0 1000000 {} [] =
      (.error "Missing repository target. Provide both `owner` and `repo` in the constructor or method call.",
        []) :=
  claim5_missing_target clientDef sig0 1000000 {} [] (Or.inl rfl)

/-- C9 (amended): `normalizePrivateKey` fails with the invalid-argument
error exactly when the input is empty after trimming; otherwise it
returns the trimmed input with every backslash+`n` escape replaced by a
newline, so escape-free input is returned trimmed — input that is
already trimmed and escape-free is returned unchanged, but surrounding
whitespace is removed rather than preserved as the claim stated. -/
theorem claim9_normalize_private_key (raw : String) :
    (trimStr raw = "" →
      normalizePrivateKey raw = .error "`privateKey` must be a non-empty string.") ∧
    (trimStr raw ≠ "" →
      normalizePrivateKey raw = .ok ⟨replEsc (trimStr raw).data⟩) ∧
    (trimStr raw ≠ "" → hasEscape (trimStr raw).data = false →
      normalizePrivateKey raw = .ok (trimStr raw)) := by
  refine ⟨?_, ?_, ?_⟩
  · intro h
    simp [normalizePrivateKey, normalizeRequiredNonEmptyString, h, Except.map]
  · intro h
    simp [normalizePrivateKey, normalizeRequiredNonEmptyString, h, Except.map]
  · intro h hesc
    simp [normalizePrivateKey, normalizeRequiredNonEmptyString, h, Except.map,
      replEsc_of_no_escape _ hesc]

/-- C9 witness: a key with surrounding whitespace and no escapes is
trimmed; the escape-free trimmed result is returned as-is. -/
theorem claim9_witness :
    trimStr " key " ≠ "" ∧ hasEscape (trimStr " key ").data = false ∧
    normalizePrivateKey " key " = .ok (trimStr " key ") :=
  ⟨by decide, by decide,
    (claim9_normalize_private_key " key ").2.2 (by decide) (by decide)⟩

/-- C9 counterexample: the input `" key "` contains no backslash+`n`
escape, yet `normalizePrivateKey` does not leave it unchanged — it
returns the trimmed `"key"`. -/
theorem claim9_counterexample :
    hasEscape " key ".data = false ∧
    normalizePrivateKey " key " = .ok "key" ∧
    ("key" : String) ≠ " key " :=
  ⟨by decide, rfl, by decide⟩

/-- C2 (amended): for every successfully constructed client, `createJwt`
returns three dot-separated base64url segments; decoding segment 1
yields the bytes of `{"alg":"RS256","typ":"JWT"}` and decoding segment 2
yields the bytes of the payload JSON, whose `iss` is the parsed `appId`,
whose `iat` is `floor(nowMs/1000) - 60`, and whose `exp - iat` equals
`jwtExpiresInSeconds + 60` — 600 under the default window of 540, not
the configured window itself as originally claimed.  (The signature
produced by the external RSA signer is assumed dot-free, as base64url
output is.) -/
theorem claim2_jwt_shape (opts : GitHubAppAuthOptions) (env : FetchEnv)
    (a : GitHubAppAuth) (rsaSign : String → String → String) (nowMs : Int)
    (h : GitHubAppAuth.construct opts env = .ok a)
    (hsig : dotFree (rsaSign a.privateKey (toBase64UrlJson jwtHeaderJson ++
      "." ++ toBase64UrlJson (jwtPayloadJson (a.jwtPayloadAt nowMs)))) = true) :
    ∃ s1 s2 s3 : String,
      a.createJwt rsaSign nowMs = s1 ++ "." ++ s2 ++ "." ++ s3 ∧
      dotFree s1 = true ∧ dotFree s2 = true ∧ dotFree s3 = true ∧
      decodeB64UrlStr s1 = some (strBytes jwtHeaderJson) ∧
      decodeB64UrlStr s2 = some (strBytes (jwtPayloadJson (a.jwtPayloadAt nowMs))) ∧
      (a.jwtPayloadAt nowMs).iss = a.appId ∧
      parsePositiveInteger opts.appId "appId" = .ok a.appId ∧
      (a.jwtPayloadAt nowMs).iat = Int.fdiv nowMs 1000 - 60 ∧
      (a.jwtPayloadAt nowMs).exp - (a.jwtPayloadAt nowMs).iat =
        a.jwtExpiresInSeconds + 60 ∧
      (opts.jwtExpiresInSeconds = none → a.jwtExpiresInSeconds = 540) := by
  obtain ⟨happ, jw, hjw, hset⟩ := construct_ok_inv opts env a h
  refine ⟨toBase64UrlJson jwtHeaderJson,
    toBase64UrlJson (jwtPayloadJson (a.jwtPayloadAt nowMs)),
    rsaSign a.privateKey (toBase64UrlJson jwtHeaderJson ++ "." ++
      toBase64UrlJson (jwtPayloadJson (a.jwtPayloadAt nowMs))),
    rfl, toBase64UrlJson_dotFree _, toBase64UrlJson_dotFree _, hsig,
    decode_toBase64UrlJson _ (by decide),
    decode_toBase64UrlJson _ (payloadJson_bytes_lt _),
    rfl, happ, rfl, ?_, ?_⟩
  · simp only [GitHubAppAuth.jwtPayloadAt]
    ring
  · intro hnone
    rw [hnone] at hjw
    simp only [parseOptionalJwtExpiresInSeconds] at hjw
    injection hjw with hjw'
    rw [hset, ← hjw']
    rfl

/-- C2 witness: the default-window client at a concrete clock
instantiates the JWT shape theorem. -/
theorem claim2_witness :
    ∃ s1 s2 s3 : String,
      clientDef.createJwt sig0 1000000 = s1 ++ "." ++ s2 ++ "." ++ s3 ∧
      dotFree s1 = true ∧ dotFree s2 = true ∧ dotFree s3 = true ∧
      decodeB64UrlStr s1 = some (strBytes jwtHeaderJson) ∧
      decodeB64UrlStr s2 =
        some (strBytes (jwtPayloadJson (clientDef.jwtPayloadAt 1000000))) ∧
      (clientDef.jwtPayloadAt 1000000).iss = clientDef.appId ∧
      parsePositiveInteger optsDef.appId "appId" = .ok clientDef.appId ∧
      (clientDef.jwtPayloadAt 1000000).iat = Int.fdiv 1000000 1000 - 60 ∧
      (clientDef.jwtPayloadAt 1000000).exp - (clientDef.jwtPayloadAt 1000000).iat =
        clientDef.jwtExpiresInSeconds + 60 ∧
      (optsDef.jwtExpiresInSeconds = none → clientDef.jwtExpiresInSeconds = 540) :=
  claim2_jwt_shape optsDef envNone clientDef sig0 1000000 rfl (by decide)

/-- C2 counterexample: with the default window 540 the payload built at
clock 1000000 is `{iat: 940, exp: 1540, iss: 123}` — segment 2 of the
JWT decodes to exactly this JSON — and its `exp - iat` is 600, not the
configured window 540 as claimed. -/
theorem claim2_counterexample :
    (GitHubAppAuth.construct optsDef envNone).toOption.map
      (fun c => c.jwtPayloadAt 1000000) = some ⟨940, 1540, 123⟩ ∧
    decodeB64UrlStr (toBase64UrlJson (jwtPayloadJson ⟨940, 1540, 123⟩)) =
      some (strBytes (jwtPayloadJson ⟨940, 1540, 123⟩)) ∧
    clientDef.jwtExpiresInSeconds = 540 ∧
    (1540 : Int) - 940 = 600 ∧ (600 : Int) ≠ 540 :=
  ⟨rfl, by decide, rfl, by decide, by decide⟩

/-- C4 (amended): `resolveInstallationId` interpolates the owner and
repo values verbatim into the path
`<apiBaseUrl>/repos/<owner>/<repo>/installation` of the single request
it issues — no percent-encoding is applied, contrary to the claim. -/
theorem claim4_raw_interpolation (a : GitHubAppAuth)
    (rsaSign : String → String → String) (nowMs : Int) (ow rp : String)
    (trace : List Request) (how : ow ≠ "") (hrp : rp ≠ "") :
    (a.resolveInstallationId rsaSign nowMs ⟨some ow, some rp⟩ trace).2 =
      trace ++ [a.lookupRequest rsaSign nowMs ow rp] ∧
    (a.lookupRequest rsaSign nowMs ow rp).url =
      a.apiBaseUrl ++ "/repos/" ++ ow ++ "/" ++ rp ++ "/installation" := by
  constructor
  · unfold GitHubAppAuth.resolveInstallationId
    simp only [nullish, Option.getD_some]
    rw [if_neg (by simp [strFalsy, how, hrp])]
    cases hfo : a.fetcher trace.length (a.lookupRequest rsaSign nowMs ow rp) with
    | thrown m => simp [hfo]
    | resp r =>
      simp only [hfo]
      split
      · rfl
      · split <;> rfl
  · rfl

/-- C4 witness: a concrete client and target instantiate the verbatim
interpolation. -/
theorem claim4_witness :
    (clientDef.resolveInstallationId sig0 1000000
      ⟨some "a b", some "hello"⟩ []).2 =
      [clientDef.lookupRequest sig0 1000000 "a b" "hello"] ∧
    (clientDef.lookupRequest sig0 1000000 "a b" "hello").url =
      clientDef.apiBaseUrl ++ "/repos/" ++ "a b" ++ "/" ++ "hello" ++
        "/installation" :=
  claim4_raw_interpolation clientDef sig0 1000000 "a b" "hello" []
    (by decide) (by decide)

/-- C4 counterexample: for the owner value `"a b"` (which requires
escaping) the issued request URL contains the raw space, and differs
from the percent-encoded URL the claim describes. -/
theorem claim4_counterexample :
    ((clientDef.resolveInstallationId sig0 1000000
        ⟨some "a b", some "hello"⟩ []).2.map Request.url =
      ["https://api.github.com/repos/a b/hello/installation"]) ∧
    specPercentEncodePathSegment "a b" = "a%20b" ∧
    ("https://api.github.com/repos/a b/hello/installation" : String) ≠
      "https://api.github.com/repos/" ++ specPercentEncodePathSegment "a b" ++
        "/" ++ specPercentEncodePathSegment "hello" ++ "/installation" :=
  ⟨rfl, by decide, by decide⟩

theorem exchangeToken_trace (a : GitHubAppAuth)
    (rsaSign : String → String → String) (nowMs : Int)
    (o : CreateAccessTokenOptions) (instId : Int) (trace : List Request) :
    (a.exchangeToken rsaSign nowMs o instId trace).2 =
      trace ++ [a.tokenRequest rsaSign nowMs o instId] := by
  unfold GitHubAppAuth.exchangeToken
  cases hfo : a.fetcher trace.length (a.tokenRequest rsaSign nowMs o instId) with
  | thrown m => simp [hfo]
  | resp r =>
    simp only [hfo]
    split
    · rfl
    · split <;> rfl

theorem resolveInstallationId_ok (a : GitHubAppAuth)
    (rsaSign : String → String → String) (nowMs : Int)
    (ow rp : String) (trace : List Request) (r : ResponseModel) (m : Int)
    (how : ow ≠ "") (hrp : rp ≠ "")
    (hfo : a.fetcher trace.length (a.lookupRequest rsaSign nowMs ow rp) = .resp r)
    (hok : r.ok = true) (hid : r.json.id = some m) (hm : m ≠ 0) :
    a.resolveInstallationId rsaSign nowMs ⟨some ow, some rp⟩ trace =
      (.ok m, trace ++ [a.lookupRequest rsaSign nowMs ow rp]) := by
  unfold GitHubAppAuth.resolveInstallationId
  simp only [nullish, Option.getD_some]
  rw [if_neg (by simp [strFalsy, how, hrp])]
  simp only [hfo]
  rw [if_neg (by simp [hok])]
  rw [if_neg (by simp [numFalsy, hid, hm])]
  simp [hid]

/-- C6: `createAccessToken` resolves the installation id in the order
explicit argument, client default, lookup via the effective target:
with an explicit positive id it issues exactly one transport call, the
POST to `/app/installations/<id>/access_tokens`; with no explicit id
but a client default it issues that same single POST for the default
id; with no id anywhere but a usable target it issues exactly two
calls, the lookup GET first and then the token POST with the id the
lookup returned; with no id and no usable target it fails with the
missing-target error and issues no transport call. -/
theorem claim6_resolution_order (a : GitHubAppAuth)
    (rsaSign : String → String → String) (nowMs : Int)
    (o : CreateAccessTokenOptions) :
    (∀ n : Int, o.installationId = some n → 0 < n →
      (a.createAccessToken rsaSign nowMs o []).2 =
        [a.tokenRequest rsaSign nowMs o n] ∧
      (a.tokenRequest rsaSign nowMs o n).method = "POST" ∧
      (a.tokenRequest rsaSign nowMs o n).url =
        a.apiBaseUrl ++ "/app/installations/" ++ Int.repr n ++ "/access_tokens") ∧
    (∀ n : Int, o.installationId = none → a.installationId = some n → 0 < n →
      (a.createAccessToken rsaSign nowMs o []).2 =
        [a.tokenRequest rsaSign nowMs o n]) ∧
    (∀ (ow rp : String) (r : ResponseModel) (m : Int),
      o.installationId = none → a.installationId = none →
      nullish o.owner a.owner = some ow → ow ≠ "" →
      nullish o.repo a.repo = some rp → rp ≠ "" →
      a.fetcher 0 (a.lookupRequest rsaSign nowMs ow rp) = .resp r →
      r.ok = true → r.json.id = some m → m ≠ 0 →
      (a.createAccessToken rsaSign nowMs o []).2 =
        [a.lookupRequest rsaSign nowMs ow rp,
          a.tokenRequest rsaSign nowMs o m] ∧
      (a.lookupRequest rsaSign nowMs ow rp).method = "GET" ∧
      (a.tokenRequest rsaSign nowMs o m).method = "POST") ∧
    (o.installationId = none → a.installationId = none →
      (strFalsy (nullish o.owner a.owner) = true ∨
        strFalsy (nullish o.repo a.repo) = true) →
      a.createAccessToken rsaSign nowMs o [] =
        (.error "Missing repository target. Provide both `owner` and `repo` in the constructor or method call.",
          [])) := by
  refine ⟨?_, ?_, ?_, ?_⟩
  · intro n hid hpos
    have hparse : parseOptionalInstallationId
        (nullish o.installationId a.installationId) = .ok (some n) := by
      rw [hid]
      simp [nullish, parseOptionalInstallationId, parsePositiveInteger,
        Except.map, show ¬ n ≤ 0 by omega]
    unfold GitHubAppAuth.createAccessToken
    simp only [hparse]
    rw [if_neg (by simp [numFalsy]; omega)]
    exact ⟨exchangeToken_trace a rsaSign nowMs o n [], rfl, rfl⟩
  · intro n hid hain hpos
    have hparse : parseOptionalInstallationId
        (nullish o.installationId a.installationId) = .ok (some n) := by
      rw [hid, hain]
      simp [nullish, parseOptionalInstallationId, parsePositiveInteger,
        Except.map, show ¬ n ≤ 0 by omega]
    unfold GitHubAppAuth.createAccessToken
    simp only [hparse]
    rw [if_neg (by simp [numFalsy]; omega)]
    exact exchangeToken_trace a rsaSign nowMs o n []
  · intro ow rp r m hidn hain hnow how hnrp hrp hfo hok hjid hm
    unfold GitHubAppAuth.createAccessToken
    have hparse : parseOptionalInstallationId
        (nullish o.installationId a.installationId) = .ok none := by
      rw [hidn, hain]; rfl
    simp only [hparse]
    rw [if_pos (show numFalsy none = true from rfl)]
    rw [hnow, hnrp]
    rw [if_neg (by simp [strFalsy, how, hrp])]
    simp only [Option.getD_some]
    rw [resolveInstallationId_ok a rsaSign nowMs ow rp [] r m how hrp hfo hok
      hjid hm]
    refine ⟨?_, rfl, rfl⟩
    exact exchangeToken_trace a rsaSign nowMs o m _
  · intro hidn hain hmiss
    unfold GitHubAppAuth.createAccessToken
    have hparse : parseOptionalInstallationId
        (nullish o.installationId a.installationId) = .ok none := by
      rw [hidn, hain]; rfl
    simp only [hparse]
    rw [if_pos (show numFalsy none = true from rfl)]
    rcases hmiss with h | h <;> simp [h]

/-- A client with no default target whose transport answers one token
exchange. -/
def clientWithId : GitHubAppAuth :=
  { appId := 1, privateKey := "k", owner := none, repo := none,
    installationId := none, apiBaseUrl := "https://api.github.com",
    jwtExpiresInSeconds := 540, fetcher := mkFetch [resp201tok "token-123"] }

/-- Per-call options carrying only an explicit installation id. -/
def o42 : CreateAccessTokenOptions := { installationId := some 42 }

/-- A client with a default owner/repo target whose transport answers
the lookup and then the exchange. -/
def clientRepo : GitHubAppAuth :=
  { appId := 1, privateKey := "k", owner := some "octo",
    repo := some "hello", installationId := none,
    apiBaseUrl := "https://api.github.com", jwtExpiresInSeconds := 540,
    fetcher := mkFetch [resp200id 321, resp201tok "token-xyz"] }

/-- The lookup response `clientRepo`'s transport returns. -/
def respLookup321 : ResponseModel :=
  { ok := true, status := 200, statusText := "OK", bodyText := "",
    json := { id := some 321 } }

/-- A client with a default installation id 77 and no target. -/
def clientDefault77 : GitHubAppAuth :=
  { appId := 1, privateKey := "k", owner := none, repo := none,
    installationId := some 77, apiBaseUrl := "https://api.github.com",
    jwtExpiresInSeconds := 540, fetcher := mkFetch [resp201tok "token-77"] }

/-- C6 witness: an explicit id 42 yields exactly the one token POST; a
default octo/hello target with no id yields the lookup GET followed by
the token POST for the resolved id 321; a client-default id 77 with no
explicit id yields the one token POST for 77; no id and no target
yields the missing-target error with an empty trace. -/
theorem claim6_witness :
    ((clientWithId.createAccessToken sig0 1000000 o42 []).2 =
        [clientWithId.tokenRequest sig0 1000000 o42 42] ∧
      (clientWithId.tokenRequest sig0 1000000 o42 42).method = "POST" ∧
      (clientWithId.tokenRequest sig0 1000000 o42 42).url =
        clientWithId.apiBaseUrl ++ "/app/installations/" ++ Int.repr 42 ++
          "/access_tokens") ∧
    ((clientRepo.createAccessToken sig0 1000000 {} []).2 =
        [clientRepo.lookupRequest sig0 1000000 "octo" "hello",
          clientRepo.tokenRequest sig0 1000000 {} 321] ∧
      (clientRepo.lookupRequest sig0 1000000 "octo" "hello").method = "GET" ∧
      (clientRepo.tokenRequest sig0 1000000 {} 321).method = "POST") ∧
    ((clientDefault77.createAccessToken sig0 1000000 {} []).2 =
      [clientDefault77.tokenRequest sig0 1000000 {} 77]) ∧
    (clientWithId.createAccessToken sig0 1000000 {} [] =
      (.error "Missing repository target. Provide both `owner` and `repo` in the constructor or method call.",
        [])) :=
  ⟨(claim6_resolution_order clientWithId sig0 1000000 o42).1 42 rfl (by decide),
    (claim6_resolution_order clientRepo sig0 1000000 {}).2.2.1 "octo" "hello"
      respLookup321 321 rfl rfl rfl (by decide) rfl (by decide) rfl rfl rfl
      (by decide),
    (claim6_resolution_order clientDefault77 sig0 1000000 {}).2.1 77 rfl rfl
      (by decide),
    (claim6_resolution_order clientWithId sig0 1000000 {}).2.2.2 rfl rfl
      (Or.inl rfl)⟩

/-- C7: with valid identity, installation id, window, base URL and
transport, constructing with a default owner but no repo (or a repo but
no owner) fails with the pairing error; constructing with neither, or
with both non-empty, succeeds. -/
theorem claim7_target_pairing (opts : GitHubAppAuthOptions) (env : FetchEnv)
    (appId' : Int) (happ : parsePositiveInteger opts.appId "appId" = .ok appId')
    (pk : String) (hpk : normalizePrivateKey opts.privateKey = .ok pk)
    (iid : Option Int)
    (hiid : parseOptionalInstallationId opts.installationId = .ok iid)
    (jw : Option Int)
    (hjw : parseOptionalJwtExpiresInSeconds opts.jwtExpiresInSeconds = .ok jw)
    (ab : Option String)
    (hab : normalizeOptionalNonEmptyString opts.apiBaseUrl "apiBaseUrl" = .ok ab)
    (f : FetchLike) (hf : resolveFetch opts.fetch env = .ok f) :
    (∀ ow, normalizeOptionalNonEmptyString opts.owner "owner" = .ok (some ow) →
      opts.repo = none →
      GitHubAppAuth.construct opts env =
        .error "Both `owner` and `repo` must be provided together when setting a default repository target.") ∧
    (∀ rp, opts.owner = none →
      normalizeOptionalNonEmptyString opts.repo "repo" = .ok (some rp) →
      GitHubAppAuth.construct opts env =
        .error "Both `owner` and `repo` must be provided together when setting a default repository target.") ∧
    (opts.owner = none → opts.repo = none →
      (GitHubAppAuth.construct opts env).isOk = true) ∧
    (∀ ow rp,
      normalizeOptionalNonEmptyString opts.owner "owner" = .ok (some ow) →
      normalizeOptionalNonEmptyString opts.repo "repo" = .ok (some rp) →
      (GitHubAppAuth.construct opts env).isOk = true) := by
  refine ⟨?_, ?_, ?_, ?_⟩
  · intro ow how hrepo
    unfold GitHubAppAuth.construct
    rw [happ, hpk, how, hrepo, hiid, hjw, hab, hf]
    simp [normalizeOptionalNonEmptyString]
  · intro rp howner hrp
    unfold GitHubAppAuth.construct
    rw [happ, hpk, howner, hrp, hiid, hjw, hab, hf]
    simp [normalizeOptionalNonEmptyString]
  · intro howner hrepo
    unfold GitHubAppAuth.construct
    rw [happ, hpk, howner, hrepo, hiid, hjw, hab, hf]
    simp [normalizeOptionalNonEmptyString, Except.isOk, Except.toBool]
  · intro ow rp how hrp
    unfold GitHubAppAuth.construct
    rw [happ, hpk, how, hrp, hiid, hjw, hab, hf]
    simp [Except.isOk, Except.toBool]

/-- C7 witness: with appId 1, key `"k"` and a stub transport, owner-only
construction fails with the pairing error, and both-or-neither
constructions succeed. -/
theorem claim7_witness :
    GitHubAppAuth.construct
        { appId := 1, privateKey := "k", owner := some "octo",
          fetch := some fetch0 } envNone =
      .error "Both `owner` and `repo` must be provided together when setting a default repository target." :=
  (claim7_target_pairing
    { appId := 1, privateKey := "k", owner := some "octo",
      fetch := some fetch0 } envNone 1 rfl "k" rfl none rfl none rfl none rfl
    fetch0 rfl).1 "octo" rfl rfl

/-- C8: the static one-shot `createAccessToken`, given full identity
plus an explicit installation id, produces exactly the result of
constructing a client from the same options and calling the instance
method with the same options (same token on success, same error on
failure, same requests). -/
theorem claim8_static_delegates (o : StaticOptions) (env : FetchEnv)
    (rsaSign : String → String → String) (nowMs : Int) (trace : List Request)
    (n : Int) (hid : o.installationId = some n) (hpos : 0 < n) :
    GitHubAppAuth.staticCreateAccessToken o env rsaSign nowMs trace =
      (match GitHubAppAuth.construct o.toAuthOptions env with
        | .error e => (.error e, trace)
        | .ok c => c.createAccessToken rsaSign nowMs o.toTokenOptions trace) :=
  rfl

/-- Merged one-shot options with identity and installation id 55. -/
def staticOpts55 : StaticOptions :=
  { appId := 1, privateKey := "k", installationId := some 55,
    fetch := some (mkFetch [resp201tok "one-shot"]) }

/-- C8 witness: the one-shot helper with installation id 55 delegates
to construct-then-call and returns the stubbed token. -/
theorem claim8_witness :
    (GitHubAppAuth.staticCreateAccessToken staticOpts55 envNone sig0 1000000 [] =
      (match GitHubAppAuth.construct staticOpts55.toAuthOptions envNone with
        | .error e => (.error e, [])
        | .ok c => c.createAccessToken sig0 1000000 staticOpts55.toTokenOptions [])) ∧
    (GitHubAppAuth.staticCreateAccessToken staticOpts55 envNone sig0 1000000 []).1 =
      .ok "one-shot" :=
  ⟨claim8_static_delegates staticOpts55 envNone sig0 1000000 [] 55 rfl
    (by decide), rfl⟩

theorem createAccessToken_explicit (a : GitHubAppAuth)
    (rsaSign : String → String → String) (nowMs : Int)
    (o : CreateAccessTokenOptions) (n : Int) (trace : List Request)
    (hid : o.installationId = some n) (hpos : 0 < n) :
    a.createAccessToken rsaSign nowMs o trace =
      a.exchangeToken rsaSign nowMs o n trace := by
  have hparse : parseOptionalInstallationId
      (nullish o.installationId a.installationId) = .ok (some n) := by
    rw [hid]
    simp [nullish, parseOptionalInstallationId, parsePositiveInteger,
      Except.map, show ¬ n ≤ 0 by omega]
  unfold GitHubAppAuth.createAccessToken
  simp only [hparse]
  rw [if_neg (by simp [numFalsy]; omega)]
  rfl

/-- C10: a 2xx response whose JSON carries a falsy expected field —
`id: 0` (or a missing `id`) for the installation lookup, `token: ""`
(or a missing `token`) for the token exchange — is rejected with the
same malformed-response error as an absent field, and the success path
returns the field's value exactly when it is truthy. -/
theorem claim10_falsy_fields (a : GitHubAppAuth)
    (rsaSign : String → String → String) (nowMs : Int)
    (ow rp : String) (r : ResponseModel)
    (how : ow ≠ "") (hrp : rp ≠ "") (hok : r.ok = true)
    (o : CreateAccessTokenOptions) (n : Int)
    (hid : o.installationId = some n) (hpos : 0 < n) :
    (a.fetcher 0 (a.lookupRequest rsaSign nowMs ow rp) = .resp r →
      ((r.json.id = some 0 ∨ r.json.id = none) →
        (a.resolveInstallationId rsaSign nowMs ⟨some ow, some rp⟩ []).1 =
          .error "GitHub response did not include an installation id.") ∧
      (∀ m : Int, r.json.id = some m → m ≠ 0 →
        (a.resolveInstallationId rsaSign nowMs ⟨some ow, some rp⟩ []).1 =
          .ok m)) ∧
    (a.fetcher 0 (a.tokenRequest rsaSign nowMs o n) = .resp r →
      ((r.json.token = some "" ∨ r.json.token = none) →
        (a.createAccessToken rsaSign nowMs o []).1 =
          .error "GitHub response did not include an installation token.") ∧
      (∀ t : String, r.json.token = some t → t ≠ "" →
        (a.createAccessToken rsaSign nowMs o []).1 = .ok t)) := by
  constructor
  · intro hfo
    constructor
    · intro hfalsy
      unfold GitHubAppAuth.resolveInstallationId
      simp only [nullish, Option.getD_some]
      rw [if_neg (by simp [strFalsy, how, hrp])]
      simp only [List.length_nil, hfo]
      rw [if_neg (by simp [hok])]
      rw [if_pos (show numFalsy r.json.id = true by
        rcases hfalsy with h | h <;> simp [numFalsy, h])]
    · intro m hm hmne
      rw [resolveInstallationId_ok a rsaSign nowMs ow rp [] r m how hrp hfo
        hok hm hmne]
  · intro hfo
    constructor
    · intro hfalsy
      rw [createAccessToken_explicit a rsaSign nowMs o n [] hid hpos]
      unfold GitHubAppAuth.exchangeToken
      simp only [List.length_nil, hfo]
      rw [if_neg (by simp [hok])]
      rw [if_pos (show strFalsy r.json.token = true by
        rcases hfalsy with h | h <;> simp [strFalsy, h])]
    · intro t ht htne
      rw [createAccessToken_explicit a rsaSign nowMs o n [] hid hpos]
      unfold GitHubAppAuth.exchangeToken
      simp only [List.length_nil, hfo]
      rw [if_neg (by simp [hok])]
      rw [if_neg (by simp [strFalsy, ht, htne])]
      simp [ht]

/-- A 2xx response whose `id` and `token` are both present but falsy. -/
def respBoth : ResponseModel :=
  { ok := true, status := 200, statusText := "OK", bodyText := "",
    json := { id := some 0, token := some "" } }

/-- A client whose transport always replies with `respBoth`. -/
def clientFalsy : GitHubAppAuth :=
  { appId := 1, privateKey := "k", owner := none, repo := none,
    installationId := none, apiBaseUrl := "https://api.github.com",
    jwtExpiresInSeconds := 540, fetcher := fun _ _ => .resp respBoth }

/-- C10 witness: a 200 response with `id: 0` makes the lookup fail with
the malformed-response error; a 2xx response with `token: ""` makes the
exchange fail likewise. -/
theorem claim10_witness :
    (clientFalsy.resolveInstallationId sig0 1000000
        ⟨some "octo", some "hello"⟩ []).1 =
      .error "GitHub response did not include an installation id." ∧
    (clientFalsy.createAccessToken sig0 1000000 o42 []).1 =
      .error "GitHub response did not include an installation token." :=
  ⟨((claim10_falsy_fields clientFalsy sig0 1000000 "octo" "hello" respBoth
      (by decide) (by decide) rfl o42 42 rfl (by decide)).1 rfl).1 (Or.inl rfl),
    ((claim10_falsy_fields clientFalsy sig0 1000000 "octo" "hello" respBoth
      (by decide) (by decide) rfl o42 42 rfl (by decide)).2 rfl).1 (Or.inl rfl)⟩
